import Mathlib

/-!
Shallow embedding of the CRUD backend in src/main.py: a FastAPI service over
SQLAlchemy with three tables (users, items, item_history), pydantic v1 DTOs
(UserCreate, ItemCreate, StatusUpdate) and domain operations create_user,
create_user_item, update_item_status, add_status_history, get_items_by_status.

Modelling conventions:
- Machine state is an explicit DB record (three tables as lists plus
  autoincrement counters); each operation is state passing and returns
  (Except HTTPException result) × DB, where the returned DB reflects whatever
  was committed before an exception, matching the per-statement commits in
  the source.
- Python exceptions raised inside a try block are values of PyError; the
  except ValidationError / except Exception ladder in the source maps
  validation errors to HTTP 400 and everything else to HTTP 500.
- Python keyword-argument call semantics for Item(**item.dict(),
  owner_id=user_id) are embedded explicitly: the keyword list is built from
  ItemCreate.dict and checked for duplicate keys before any field handling,
  because CPython raises TypeError at the call site for a duplicated keyword.
- pydantic v1 semantics: a field annotated with a type but given a default of
  None is optional with default None; constructing a model with a required
  field missing raises ValidationError.
- bcrypt.hashpw/gensalt is an external collaborator: the development is
  parameterised over bcryptHash : String → String. datetime.utcnow() is
  passed in as a Nat timestamp.
-/

namespace ChallengeApp

/-- StatusEnum from src/main.py: NEW, APPROVED, EOL. -/
inductive StatusEnum where
  | NEW
  | APPROVED
  | EOL
deriving DecidableEq, Repr

/-- Python runtime values that can travel through keyword arguments of the
ORM constructors and pydantic models in this service. -/
inductive PyVal where
  | pynone
  | pybool (b : Bool)
  | pyint (n : Int)
  | pystr (s : String)
  | pystatus (s : StatusEnum)
deriving DecidableEq, Repr

/-- Python exceptions that the try blocks of src/main.py can see. -/
inductive PyError where
  | validationError (msg : String)
  | typeErrorMultipleValues (key : String)
  | attributeErrorNoneEncode
  | commitError (msg : String)
deriving DecidableEq, Repr

/-- Row of the users table (User model, src/main.py lines 27-33). -/
structure UserRow where
  id : Int
  email : Option String
  hash_password : Option String
  is_active : Bool
deriving DecidableEq, Repr

/-- Row of the items table (Item model, src/main.py lines 37-45):
status column has Python-side default StatusEnum.NEW. -/
structure ItemRow where
  id : Int
  title : Option String
  description : Option String
  owner_id : Option Int
  status : Option StatusEnum
deriving DecidableEq, Repr

/-- Row of the item_history table (ItemHistory model, src/main.py
lines 49-56). -/
structure ItemHistoryRow where
  id : Int
  item_id : Int
  old_status : Option StatusEnum
  new_status : Option StatusEnum
  change_date : Nat
deriving DecidableEq, Repr

/-- The database: the three tables plus autoincrement counters for the
integer primary keys. -/
structure DB where
  users : List UserRow
  items : List ItemRow
  item_history : List ItemHistoryRow
  nextUserId : Int
  nextItemId : Int
  nextHistoryId : Int
deriving DecidableEq, Repr

/-- HTTPException as raised by the handlers (status_code, detail). -/
structure HTTPException where
  status_code : Nat
  detail : String
deriving DecidableEq, Repr

/-- UserCreate pydantic model (src/main.py lines 94-103): every field is
optional with a default, mirrored by Lean field defaults. -/
structure UserCreate where
  email : Option String := none
  password : Option String := none
  id : Option Int := none
  is_active : Option Bool := some true
deriving DecidableEq, Repr

/-- ItemCreate pydantic model (src/main.py lines 82-91). The class body
declares status twice; the second bare annotation (StatusEnum) overwrites the
first in the annotations map while the earlier assigned default None remains
the class attribute, and pydantic v1 turns a None default into an optional
field, so status is optional with default None. Field title is
Optional with default True (of type bool in the source), owner_id is the
only required field. -/
structure ItemCreate where
  title : Option Bool := some true
  status : Option StatusEnum := none
  description : Option String := none
  id : Option Int := none
  owner_id : Int
deriving DecidableEq, Repr

/-- item.dict() for an ItemCreate: all five fields in declaration order,
None for unset optionals. -/
def ItemCreate.dict (it : ItemCreate) : List (String × PyVal) :=
  [ ("title", match it.title with | some b => PyVal.pybool b | none => PyVal.pynone)
  , ("status", match it.status with | some s => PyVal.pystatus s | none => PyVal.pynone)
  , ("description", match it.description with | some s => PyVal.pystr s | none => PyVal.pynone)
  , ("id", match it.id with | some n => PyVal.pyint n | none => PyVal.pynone)
  , ("owner_id", PyVal.pyint it.owner_id) ]

/-- The keyword-argument list of the call Item(**item.dict(), owner_id=user_id)
in create_user_item (src/main.py line 152): the unpacked dict followed by the
explicit owner_id keyword. -/
def itemCtorKwargs (item : ItemCreate) (user_id : Int) : List (String × PyVal) :=
  item.dict ++ [("owner_id", PyVal.pyint user_id)]

/-- First keyword that occurs twice in a keyword-argument list, if any:
CPython raises TypeError for it at the call site. -/
def firstDupKey : List (String × PyVal) → Option String
  | [] => none
  | (k, _) :: rest =>
      if rest.any (fun p => p.1 == k) then some k else firstDupKey rest

/-- Lookup of a keyword in a keyword-argument list. -/
def kwLookup (key : String) : List (String × PyVal) → Option PyVal
  | [] => none
  | (k, v) :: rest => if k == key then some v else kwLookup key rest

/-- The Item(...) ORM constructor followed by flush: duplicate keywords raise
TypeError before any field handling (CPython call semantics); otherwise the
row is built, with the status column default StatusEnum.NEW firing only when
no status keyword was supplied at all (an explicit None counts as a supplied
value in SQLAlchemy and inserts NULL), and the autoincrement id assigned when
no integer id was supplied. -/
def itemCtor (nextId : Int) (kwargs : List (String × PyVal)) : Except PyError ItemRow :=
  match firstDupKey kwargs with
  | some k => Except.error (PyError.typeErrorMultipleValues k)
  | none =>
      Except.ok
        { id := match kwLookup "id" kwargs with
            | some (PyVal.pyint n) => n
            | _ => nextId
        , title := match kwLookup "title" kwargs with
            | some (PyVal.pystr s) => some s
            | _ => none
        , description := match kwLookup "description" kwargs with
            | some (PyVal.pystr s) => some s
            | _ => none
        , owner_id := match kwLookup "owner_id" kwargs with
            | some (PyVal.pyint n) => some n
            | _ => none
        , status := match kwLookup "status" kwargs with
            | none => some StatusEnum.NEW
            | some (PyVal.pystatus s) => some s
            | some _ => none }

/-- pydantic v1 boolean coercion (used for ItemCreate.title): bools pass,
0/1 integers pass, a small set of strings passes, anything else is a
validation error. -/
def pyBoolCoerce : PyVal → Except PyError (Option Bool)
  | PyVal.pynone => Except.ok none
  | PyVal.pybool b => Except.ok (some b)
  | PyVal.pyint n =>
      if n == 0 then Except.ok (some false)
      else if n == 1 then Except.ok (some true)
      else Except.error (PyError.validationError "title value could not be parsed to a boolean")
  | PyVal.pystr s =>
      if ["true", "t", "yes", "y", "on", "1"].contains s.toLower then Except.ok (some true)
      else if ["false", "f", "no", "n", "off", "0"].contains s.toLower then Except.ok (some false)
      else Except.error (PyError.validationError "title value could not be parsed to a boolean")
  | PyVal.pystatus _ =>
      Except.error (PyError.validationError "title value could not be parsed to a boolean")

/-- Constructing an ItemCreate pydantic model from keyword arguments:
owner_id is the only required field, so when it is absent pydantic v1 raises
ValidationError (field required); present fields are validated, absent
optional fields take their defaults. This embeds the response-building calls
ItemCreate(id=..., title=..., status=..., description=...) in
create_user_item and update_item_status, which never pass owner_id. -/
def itemCreateValidate (kwargs : List (String × PyVal)) : Except PyError ItemCreate :=
  match kwLookup "owner_id" kwargs with
  | none => Except.error (PyError.validationError "owner_id field required")
  | some ov =>
      match ov with
      | PyVal.pyint owner =>
          match pyBoolCoerce ((kwLookup "title" kwargs).getD (PyVal.pybool true)) with
          | Except.error e => Except.error e
          | Except.ok titleVal =>
              match (kwLookup "status" kwargs).getD PyVal.pynone with
              | PyVal.pystatus st =>
                  Except.ok { title := titleVal, status := some st
                            , description := match kwLookup "description" kwargs with
                                | some (PyVal.pystr s) => some s
                                | _ => none
                            , id := match kwLookup "id" kwargs with
                                | some (PyVal.pyint n) => some n
                                | _ => none
                            , owner_id := owner }
              | PyVal.pynone =>
                  Except.ok { title := titleVal, status := none
                            , description := match kwLookup "description" kwargs with
                                | some (PyVal.pystr s) => some s
                                | _ => none
                            , id := match kwLookup "id" kwargs with
                                | some (PyVal.pyint n) => some n
                                | _ => none
                            , owner_id := owner }
              | _ => Except.error (PyError.validationError "status is not a valid enumeration member")
      | _ => Except.error (PyError.validationError "owner_id value is not a valid integer")

/-- hash_password (src/main.py lines 110-114): raw_password.encode raises
AttributeError when the password is None; otherwise the external bcrypt
primitive produces the stored string. -/
def hash_password (bcryptHash : String → String) : Option String → Except PyError String
  | none => Except.error PyError.attributeErrorNoneEncode
  | some raw => Except.ok (bcryptHash raw)

/-- Render a PyError the way the except ladder formats the detail string. -/
def pyMsg : PyError → String
  | PyError.validationError m => m
  | PyError.typeErrorMultipleValues k =>
      "init got multiple values for keyword argument " ++ k
  | PyError.attributeErrorNoneEncode =>
      "NoneType object has no attribute encode"
  | PyError.commitError m => m

/-- create_user (src/main.py lines 118-139): hash the password, insert a
User row with is_active=True, return UserCreate(id, email). An exception
from hash_password is not a ValidationError, so it surfaces as HTTP 500;
the UserCreate response model has only optional fields and always
validates. -/
def create_user (bcryptHash : String → String) (db : DB) (user : UserCreate) :
    (Except HTTPException UserCreate) × DB :=
  match hash_password bcryptHash user.password with
  | Except.error e => (Except.error ⟨500, pyMsg e⟩, db)
  | Except.ok hp =>
      let u : UserRow :=
        { id := db.nextUserId, email := user.email
        , hash_password := some hp, is_active := true }
      let db1 : DB :=
        { db with users := db.users ++ [u], nextUserId := db.nextUserId + 1 }
      (Except.ok { email := u.email, id := some u.id }, db1)

/-- create_user_item (src/main.py lines 142-161): Item(**item.dict(),
owner_id=user_id) passes owner_id twice, so the call raises TypeError before
the constructor body runs; TypeError is caught by the generic except branch
and surfaces as HTTP 500 with nothing committed. The success branch (dead in
this source) would insert the row and build the response model, whose missing
owner_id keyword would raise ValidationError, surfacing as HTTP 400. -/
def create_user_item (db : DB) (item : ItemCreate) (user_id : Int) :
    (Except HTTPException ItemCreate) × DB :=
  match itemCtor db.nextItemId (itemCtorKwargs item user_id) with
  | Except.error (PyError.validationError m) => (Except.error ⟨400, m⟩, db)
  | Except.error e => (Except.error ⟨500, pyMsg e⟩, db)
  | Except.ok row =>
      let db1 : DB :=
        { db with items := db.items ++ [row], nextItemId := db.nextItemId + 1 }
      match itemCreateValidate
          [ ("id", PyVal.pyint row.id)
          , ("title", match row.title with | some s => PyVal.pystr s | none => PyVal.pynone)
          , ("status", match row.status with | some s => PyVal.pystatus s | none => PyVal.pynone)
          , ("description", match row.description with | some s => PyVal.pystr s | none => PyVal.pynone) ] with
      | Except.error (PyError.validationError m) => (Except.error ⟨400, m⟩, db1)
      | Except.error e => (Except.error ⟨500, pyMsg e⟩, db1)
      | Except.ok out => (Except.ok out, db1)

/-- Replace the first element satisfying p by f of it, embedding an ORM
update of the single row object returned by query(...).first(). -/
def updateFirst (p : α → Bool) (f : α → α) : List α → List α
  | [] => []
  | x :: xs => if p x then f x :: xs else x :: updateFirst p f xs

/-- add_status_history (src/main.py lines 194-215): insert an ItemHistory
row with change_date = datetime.utcnow() and commit; a commit failure is
injected through the commitFail flag and surfaces as HTTP 500 with the
insert not persisted. -/
def add_status_history (db : DB) (item_id : Int)
    (old_status : Option StatusEnum) (new_status : StatusEnum)
    (now : Nat) (commitFail : Bool) :
    (Except HTTPException Unit) × DB :=
  if commitFail then
    (Except.error ⟨500, pyMsg (PyError.commitError "history commit failed")⟩, db)
  else
    let entry : ItemHistoryRow :=
      { id := db.nextHistoryId, item_id := item_id
      , old_status := old_status, new_status := some new_status
      , change_date := now }
    (Except.ok (),
      { db with item_history := db.item_history ++ [entry]
              , nextHistoryId := db.nextHistoryId + 1 })

/-- update_item_status (src/main.py lines 164-191): 404 when the item does
not exist; otherwise record the old status, write and commit the new status,
append the history row in a second commit, then build the response with
ItemCreate(id, title, status, description). The response model requires
owner_id, which is not passed, so the successful data path ends in a
ValidationError surfaced as HTTP 400 after both commits. An HTTPException
escaping add_status_history is caught by the generic except branch and
rewrapped as HTTP 500. -/
def update_item_status (db : DB) (item_id : Int) (status : StatusEnum)
    (now : Nat) (histCommitFail : Bool) :
    (Except HTTPException ItemCreate) × DB :=
  match db.items.find? (fun it => it.id == item_id) with
  | none => (Except.error ⟨404, "Item not found"⟩, db)
  | some item =>
      let old_status := item.status
      let setStatus : ItemRow → ItemRow := fun it => { it with status := some status }
      let db1 : DB :=
        { db with items := updateFirst (fun it => it.id == item_id) setStatus db.items }
      match add_status_history db1 item_id old_status status now histCommitFail with
      | (Except.error e, db2) => (Except.error ⟨500, e.detail⟩, db2)
      | (Except.ok _, db2) =>
          match itemCreateValidate
              [ ("id", PyVal.pyint item.id)
              , ("title", match item.title with | some s => PyVal.pystr s | none => PyVal.pynone)
              , ("status", PyVal.pystatus status)
              , ("description", match item.description with | some s => PyVal.pystr s | none => PyVal.pynone) ] with
          | Except.error (PyError.validationError m) => (Except.error ⟨400, m⟩, db2)
          | Except.error e => (Except.error ⟨500, pyMsg e⟩, db2)
          | Except.ok out => (Except.ok out, db2)

/-- get_items_by_status (src/main.py lines 218-226): a filtered select on
exact status equality; rows whose status column is NULL never match. The
session is returned unchanged: the query performs no write. -/
def get_items_by_status (db : DB) (status : StatusEnum) :
    (List ItemRow) × DB :=
  (db.items.filter (fun it => it.status == some status), db)

/-- Body returned by the first read_root handler, registered on GET /
(src/main.py lines 230-237). -/
def rootBody : List (String × String) := [("Hello", "World")]

/-- Body returned by the second read_root handler, registered on GET
/health/alive (src/main.py lines 240-247). -/
def healthBody : List (String × String) :=
  [("status", "Success"), ("message", "Application is healthy")]

/-- The GET route table of the service: both read_root functions were
registered by their decorators before the second def shadowed the first
name, so GET / serves rootBody and GET /health/alive serves healthBody. -/
def handleGet : String → Option (List (String × String))
  | "/" => some rootBody
  | "/health/alive" => some healthBody
  | _ => none

end ChallengeApp

namespace ChallengeApp

/-- A concrete stand-in for the external bcrypt collaborator, used by
witnesses. -/
def demoHash : String → String := fun s => String.append "hashed " s

/-- A concrete item row used by witnesses. -/
def demoItem : ItemRow :=
  { id := 1, title := some "X", description := none
  , owner_id := some 1, status := some StatusEnum.NEW }

/-- A concrete database holding one item, used by witnesses. -/
def demoDB : DB :=
  { users := [], items := [demoItem], item_history := []
  , nextUserId := 1, nextItemId := 2, nextHistoryId := 1 }

/-- A concrete empty database, used by witnesses. -/
def emptyDB : DB :=
  { users := [], items := [], item_history := []
  , nextUserId := 1, nextItemId := 1, nextHistoryId := 1 }

/-- Claim C1: for every item_id that references no existing Item row,
update_item_status fails with a 404 NotFound error, creates no ItemHistory
row, and leaves every table unchanged (the returned database equals the
input database). -/
theorem update_item_status_missing_item_404
    (db : DB) (item_id : Int) (status : StatusEnum) (now : Nat) (fail : Bool)
    (h : ∀ it ∈ db.items, it.id ≠ item_id) :
    update_item_status db item_id status now fail =
      (Except.error ⟨404, "Item not found"⟩, db) := by
  have hfind : db.items.find? (fun it => it.id == item_id) = none := by
    rw [List.find?_eq_none]
    intro it hit
    simpa using h it hit
  simp [update_item_status, hfind]

/-- Witness for C1: updating item 1 in the empty database yields 404 and the
database is unchanged. -/
theorem update_item_status_missing_item_404_witness :
    update_item_status emptyDB 1 StatusEnum.APPROVED 0 false =
      (Except.error ⟨404, "Item not found"⟩, emptyDB) :=
  update_item_status_missing_item_404 emptyDB 1 StatusEnum.APPROVED 0 false
    (by intro it hit; simp [emptyDB] at hit)

/-- Claim C2: for every existing Item whose status is A, an update_item_status
call with requested status B (and no injected storage failure) writes B onto
that Item and appends exactly one ItemHistory row with old_status = A (the
status immediately before the write), new_status = B and change_date = now,
where now is the utcnow() reading taken during the request, so
change_date ≥ the request time t_req; this holds with no guard when A = B.
The full result equality also records that the call afterwards surfaces a
400 ValidationError while building the ItemCreate response, whose required
owner_id field is never passed, so the committed writes are the whole
observable database effect. -/
theorem update_item_status_appends_one_history_row
    (db : DB) (item : ItemRow) (item_id : Int) (A B : StatusEnum)
    (t_req now : Nat)
    (hfind : db.items.find? (fun it => it.id == item_id) = some item)
    (hA : item.status = some A) (hclock : t_req ≤ now) :
    update_item_status db item_id B now false =
      (Except.error ⟨400, "owner_id field required"⟩,
        { db with
            items := updateFirst (fun it => it.id == item_id)
              (fun it => { it with status := some B }) db.items
            item_history := db.item_history ++
              [⟨db.nextHistoryId, item_id, some A, some B, now⟩]
            nextHistoryId := db.nextHistoryId + 1 }) ∧
    (⟨db.nextHistoryId, item_id, some A, some B, now⟩ : ItemHistoryRow).change_date ≥ t_req := by
  constructor
  · simp [update_item_status, hfind, hA, add_status_history, itemCreateValidate, kwLookup]
  · exact hclock

/-- Witness for C2, exercising the no-op case A = B: re-requesting NEW on the
demo item (already NEW) still writes the status and appends exactly one
NEW-to-NEW history row with change_date 5 ≥ request time 3. -/
theorem update_item_status_appends_one_history_row_witness :
    (update_item_status demoDB 1 StatusEnum.NEW 5 false =
      (Except.error ⟨400, "owner_id field required"⟩,
        { demoDB with
            items := updateFirst (fun it => it.id == 1)
              (fun it => { it with status := some StatusEnum.NEW }) demoDB.items
            item_history := demoDB.item_history ++
              [⟨demoDB.nextHistoryId, 1, some StatusEnum.NEW, some StatusEnum.NEW, 5⟩]
            nextHistoryId := demoDB.nextHistoryId + 1 }) ∧
    (⟨demoDB.nextHistoryId, 1, some StatusEnum.NEW, some StatusEnum.NEW, 5⟩ : ItemHistoryRow).change_date ≥ 3) :=
  update_item_status_appends_one_history_row demoDB demoItem 1
    StatusEnum.NEW StatusEnum.NEW 3 5 rfl rfl (by decide)

/-- Claim C3: get_items_by_status is a pure read (the database comes back
unchanged), its result contains exactly the items whose status equals S and
no others, and it is empty when no item has status S. -/
theorem get_items_by_status_pure_and_exact (db : DB) (S : StatusEnum) :
    (get_items_by_status db S).2 = db ∧
    (∀ it : ItemRow, it ∈ (get_items_by_status db S).1 ↔
      it ∈ db.items ∧ it.status = some S) ∧
    ((∀ it ∈ db.items, it.status ≠ some S) → (get_items_by_status db S).1 = []) := by
  refine ⟨rfl, ?_, ?_⟩
  · intro it
    simp [get_items_by_status, List.mem_filter]
  · intro h
    simp only [get_items_by_status]
    rw [List.filter_eq_nil_iff]
    intro it hit
    simpa using h it hit

/-- Witness for C3: on the demo database no item has status EOL, so the query
returns the empty list and leaves the database unchanged. -/
theorem get_items_by_status_pure_and_exact_witness :
    (get_items_by_status demoDB StatusEnum.EOL).2 = demoDB ∧
    (get_items_by_status demoDB StatusEnum.EOL).1 = [] :=
  ⟨(get_items_by_status_pure_and_exact demoDB StatusEnum.EOL).1,
   (get_items_by_status_pure_and_exact demoDB StatusEnum.EOL).2.2 (by decide)⟩

/-- Claim C4: for every input carrying a password (with the salted one-way
hash never returning its input), create_user appends exactly one new User
row whose is_active flag is true and whose stored hash_password is the hash,
which differs from the raw input password, and returns the created id and
email; the other tables are unchanged. -/
theorem create_user_persists_hashed_active_row
    (bcryptHash : String → String) (db : DB) (user : UserCreate) (raw : String)
    (hpw : user.password = some raw) (hne : bcryptHash raw ≠ raw) :
    create_user bcryptHash db user =
      (Except.ok { email := user.email, id := some db.nextUserId
                 , password := none, is_active := some true },
        { db with
            users := db.users ++
              [{ id := db.nextUserId, email := user.email
               , hash_password := some (bcryptHash raw), is_active := true }]
            nextUserId := db.nextUserId + 1 }) ∧
    some (bcryptHash raw) ≠ user.password := by
  constructor
  · simp [create_user, hash_password, hpw]
  · rw [hpw]
    simp [hne]

/-- Witness for C4: creating a user with email a at b.c and password pw in
the empty database persists one active row with the demo hash of pw. -/
theorem create_user_persists_hashed_active_row_witness :
    create_user demoHash emptyDB { email := some "a@b.c", password := some "pw" } =
      (Except.ok { email := some "a@b.c", id := some emptyDB.nextUserId
                 , password := none, is_active := some true },
        { emptyDB with
            users := emptyDB.users ++
              [{ id := emptyDB.nextUserId, email := some "a@b.c"
               , hash_password := some (demoHash "pw"), is_active := true }]
            nextUserId := emptyDB.nextUserId + 1 }) ∧
    some (demoHash "pw") ≠
      ({ email := some "a@b.c", password := some "pw" } : UserCreate).password :=
  create_user_persists_hashed_active_row demoHash emptyDB
    { email := some "a@b.c", password := some "pw" } "pw" rfl (by decide)

/-- Claim C5 (code bug): with owner_id 7 referencing no User in the empty
database, create_user_item does not succeed and persists nothing: the
duplicated owner_id keyword raises TypeError, surfaced as HTTP 500, with the
database returned unchanged — contradicting the claim that the operation
accepts the orphaned reference and succeeds. -/
theorem create_user_item_orphan_owner_no_row :
    emptyDB.users = [] ∧
    create_user_item emptyDB { owner_id := 7 } 7 =
      (Except.error
        ⟨500, "init got multiple values for keyword argument owner_id"⟩,
        emptyDB) :=
  ⟨rfl, rfl⟩

/-- Claim C6 (code bug): a create-item request supplying no status (the
ItemCreate field defaults to none) creates no Item row at all — the call
fails with the duplicated owner_id TypeError surfaced as HTTP 500 and the
database is unchanged — so no created row with status NEW exists; the items
table schema itself would default an unsupplied status column to NEW, as the
itemCtor conjunct shows, but that path is unreachable from the endpoint. -/
theorem create_item_without_status_no_row :
    ({ owner_id := 1 } : ItemCreate).status = none ∧
    create_user_item emptyDB { owner_id := 1 } 1 =
      (Except.error
        ⟨500, "init got multiple values for keyword argument owner_id"⟩,
        emptyDB) ∧
    itemCtor 1 [("title", PyVal.pystr "X"), ("owner_id", PyVal.pyint 1)] =
      Except.ok { id := 1, title := some "X", description := none
                , owner_id := some 1, status := some StatusEnum.NEW } :=
  ⟨rfl, rfl, rfl⟩

/-- Counterexample to claim C7: a GET request to path / returns the
Hello-World body registered by the first read_root handler, which is not the
health body the claim asserts. -/
theorem root_route_counterexample :
    handleGet "/" = some rootBody ∧ handleGet "/" ≠ some healthBody := by
  refine ⟨rfl, ?_⟩
  decide

/-- Claim C7 as amended: the JSON body with status Success and message
Application is healthy is returned by GET /health/alive, while GET / returns
the Hello World body. -/
theorem health_body_served_at_health_alive :
    handleGet "/health/alive" = some healthBody ∧
    handleGet "/" = some rootBody :=
  ⟨rfl, rfl⟩

/-- Claim C8: the status write and the history append are two separate
commits: when the history-append commit fails after the status commit, the
call raises an HTTP 500 error while the Item status remains updated and the
item_history table gains no row for the transition (only the items field of
the database changes). -/
theorem update_item_status_partial_on_history_failure
    (db : DB) (item : ItemRow) (item_id : Int) (B : StatusEnum) (now : Nat)
    (hfind : db.items.find? (fun it => it.id == item_id) = some item) :
    update_item_status db item_id B now true =
      (Except.error ⟨500, "history commit failed"⟩,
        { db with
            items := updateFirst (fun it => it.id == item_id)
              (fun it => { it with status := some B }) db.items }) := by
  simp [update_item_status, hfind, add_status_history, pyMsg]

/-- Witness for C8: on the demo database a failing history commit leaves
item 1 updated to APPROVED with the history table still empty. -/
theorem update_item_status_partial_on_history_failure_witness :
    update_item_status demoDB 1 StatusEnum.APPROVED 5 true =
      (Except.error ⟨500, "history commit failed"⟩,
        { demoDB with
            items := updateFirst (fun it => it.id == 1)
              (fun it => { it with status := some StatusEnum.APPROVED }) demoDB.items }) :=
  update_item_status_partial_on_history_failure demoDB demoItem 1
    StatusEnum.APPROVED 5 rfl

/-- Claim C9: for every database, item payload and user_id, the keyword list
of Item(**item.dict(), owner_id=user_id) contains owner_id twice — once from
ItemCreate.dict and once as the explicit keyword — so create_user_item
raises TypeError before any row is written, surfaced as an HTTP 500 error
with the database returned unchanged: no Item row is ever created through
this operation. -/
theorem create_user_item_always_500
    (db : DB) (item : ItemCreate) (user_id : Int) :
    firstDupKey (itemCtorKwargs item user_id) = some "owner_id" ∧
    create_user_item db item user_id =
      (Except.error
        ⟨500, "init got multiple values for keyword argument owner_id"⟩,
        db) :=
  ⟨rfl, rfl⟩

/-- Witness for C9 at a concrete input: the demo database and payload with
owner_id 3 hit the duplicate keyword and the 500 error, unchanged database. -/
theorem create_user_item_always_500_witness :
    firstDupKey (itemCtorKwargs { owner_id := 3 } 3) = some "owner_id" ∧
    create_user_item demoDB { owner_id := 3 } 3 =
      (Except.error
        ⟨500, "init got multiple values for keyword argument owner_id"⟩,
        demoDB) :=
  create_user_item_always_500 demoDB { owner_id := 3 } 3

/-- Claim C10: the 400 ValidationError branch of create_user is unreachable —
every error create_user surfaces carries status code 500; every field of
UserCreate is optional with a default, so the empty request has password
none, and create_user on it reaches hash_password with None, whose
AttributeError surfaces as a 500 error with the database unchanged. -/
theorem create_user_validation_branch_unreachable
    (bcryptHash : String → String) (db : DB) (user : UserCreate)
    (e : HTTPException)
    (herr : (create_user bcryptHash db user).1 = Except.error e) :
    e.status_code = 500 ∧
    ({} : UserCreate).password = none ∧
    create_user bcryptHash db {} =
      (Except.error ⟨500, "NoneType object has no attribute encode"⟩, db) := by
  refine ⟨?_, rfl, rfl⟩
  match hp : user.password with
  | none =>
      simp [create_user, hash_password, hp, pyMsg] at herr
      rw [← herr]
  | some raw =>
      simp [create_user, hash_password, hp] at herr

/-- Witness for C10: the empty request against the empty database surfaces a
500 AttributeError, never a 400. -/
theorem create_user_validation_branch_unreachable_witness :
    (⟨500, "NoneType object has no attribute encode"⟩ : HTTPException).status_code = 500 ∧
    ({} : UserCreate).password = none ∧
    create_user demoHash emptyDB {} =
      (Except.error ⟨500, "NoneType object has no attribute encode"⟩, emptyDB) :=
  create_user_validation_branch_unreachable demoHash emptyDB {}
    ⟨500, "NoneType object has no attribute encode"⟩ rfl

end ChallengeApp
